import Mathlib

/-!
Shallow embedding of `src/mycase.js` (a small OAuth token-lifecycle manager
and lead forwarder) and proofs about its token logic.

Modelling conventions:
* JavaScript objects holding token data become the `TokenRecord` structure;
  a field that may be `undefined` is an `Option`.
* JavaScript truthiness tests on these fields (`!tokens.expires_at`,
  `!tokens.refresh_token`, `body.email || null`, ...) are modelled by
  `jsIntTruthy` / `jsStrTruthy` / `jsOr` / `jsOrNull`: `undefined`, `0`
  and `""` are falsy, everything else is truthy.
* `Date.now()` becomes an explicit `now : Int` parameter (epoch ms).
* The token file becomes an explicit `store : Option TokenRecord` value
  threaded through each operation; `loadTokens()` returning `null` on a
  missing or unparseable file is the `none` case.
* The single possible network call of an operation (the POST to the token
  endpoint) is modelled by a `net : Except String TokenResponse` oracle
  parameter: `.ok data` is a 2xx response with body `data`, `.error cause`
  is a network error or non-2xx response (axios throws in both cases).
  Each operation also returns the list of refresh invocations it performed,
  each entry recording the `refresh_token` value passed.
* Thrown errors become `Except` values tagged with the spec's error
  taxonomy (`Unauthorized`, `MissingRefreshToken`, `RefreshFailed cause`).
-/

namespace MyCase

/-- JS truthiness of an optional integer field: `undefined` and `0` are falsy. -/
def jsIntTruthy : Option Int → Bool
  | none => false
  | some n => n != 0

/-- JS truthiness of an optional string field: `undefined` and `""` are falsy. -/
def jsStrTruthy : Option String → Bool
  | none => false
  | some s => s != ""

/-- JS `x || d` for an optional string `x` and string default `d`. -/
def jsOr (o : Option String) (d : String) : String :=
  match o with
  | none => d
  | some s => if s == "" then d else s

/-- JS `x || null` for an optional string `x`. -/
def jsOrNull (o : Option String) : Option String :=
  match o with
  | none => none
  | some s => if s == "" then none else some s

/-- The token record persisted in the token file (`tokens.json`).
Fields the code never reads are omitted; extra response fields are opaque
pass-through in the source and play no role in any claim. -/
structure TokenRecord where
  access_token : Option String
  refresh_token : Option String
  expires_in : Option Int
  expires_at : Option Int
  deriving Repr, DecidableEq

/-- Body of a 2xx response from the token endpoint (`res.data`), before the
code adds `expires_at`. -/
structure TokenResponse where
  access_token : Option String
  refresh_token : Option String
  expires_in : Option Int
  deriving Repr, DecidableEq

/-- Error taxonomy of the token-lifecycle manager (spec section 7); the source
throws `Error` objects with distinguishing messages / rethrows the axios
error, which we tag accordingly. -/
inductive AppError where
  | Unauthorized
  | MissingRefreshToken
  | RefreshFailed (cause : String)
  deriving Repr, DecidableEq

/-- Model of `saveTokens` (src/mycase.js lines 31-38): if `tokens.expires_in` is truthy,
set `tokens.expires_at = Date.now() + tokens.expires_in * 1000`, then write the
record to the token file. The written (and returned, since JS mutates in
place) record is the value of this function. -/
def saveTokens (now : Int) (tokens : TokenRecord) : TokenRecord :=
  if jsIntTruthy tokens.expires_in then
    { tokens with expires_at := some (now + tokens.expires_in.getD 0 * 1000) }
  else
    tokens

/-- The record built from a token-endpoint response body in
`exchangeCodeForTokens` / `refreshAccessToken` (lines 52-53 and 70-71):
`tokens.expires_at = Date.now() + (tokens.expires_in || 0) * 1000`. -/
def mkTokenRecord (now : Int) (resp : TokenResponse) : TokenRecord :=
  { access_token := resp.access_token
    refresh_token := resp.refresh_token
    expires_in := resp.expires_in
    expires_at := some (now + (if jsIntTruthy resp.expires_in then resp.expires_in.getD 0 else 0) * 1000) }

/-- Model of `refreshAccessToken` (lines 59-79). Posts the refresh request; on a 2xx
response builds the new record, saves it and returns it; on failure logs and
rethrows (tagged `RefreshFailed cause`). Returns (result, store after the
call, refresh invocations performed). -/
def refreshAccessToken (now : Int) (refreshToken : Option String)
    (net : Except String TokenResponse) (store : Option TokenRecord) :
    Except AppError TokenRecord × Option TokenRecord × List (Option String) :=
  match net with
  | .error cause => (.error (.RefreshFailed cause), store, [refreshToken])
  | .ok data =>
      let saved := saveTokens now (mkTokenRecord now data)
      (.ok saved, some saved, [refreshToken])

/-- Model of `exchangeCodeForTokens` (lines 41-56): no try/catch, a failure propagates
to the `/callback` route. -/
def exchangeCodeForTokens (now : Int) (net : Except String TokenResponse)
    (store : Option TokenRecord) :
    Except String TokenRecord × Option TokenRecord :=
  match net with
  | .error cause => (.error cause, store)
  | .ok data =>
      let saved := saveTokens now (mkTokenRecord now data)
      (.ok saved, some saved)

/-- The near-expiry test of `getValidAccessToken` (line 88):
`!tokens.expires_at || now >= tokens.expires_at - 2 * 60 * 1000`. -/
def nearExpiry (now : Int) (tokens : TokenRecord) : Bool :=
  !(jsIntTruthy tokens.expires_at) || decide (now ≥ tokens.expires_at.getD 0 - 2 * 60 * 1000)

/-- Model of `getValidAccessToken` (lines 82-93). Returns (result, store after the
call, refresh invocations performed). The success value is the record's
`access_token` field, which in JS may itself be `undefined` (hence
`Option String`). -/
def getValidAccessToken (now : Int) (net : Except String TokenResponse)
    (store : Option TokenRecord) :
    Except AppError (Option String) × Option TokenRecord × List (Option String) :=
  match store with
  | none => (.error .Unauthorized, none, [])
  | some tokens =>
      if nearExpiry now tokens then
        if !(jsStrTruthy tokens.refresh_token) then
          (.error .MissingRefreshToken, some tokens, [])
        else
          match refreshAccessToken now tokens.refresh_token net (some tokens) with
          | (.ok newTokens, store2, calls) => (.ok newTokens.access_token, store2, calls)
          | (.error e, store2, calls) => (.error e, store2, calls)
      else
        (.ok tokens.access_token, some tokens, [])

/-- Model of `backgroundRefresher` (lines 96-112). The whole body is wrapped in
try/catch whose handler only logs, so the function always returns normally;
modelling it as a total function returning (store after the tick, refresh
invocations performed) captures exactly that. -/
def backgroundRefresher (now : Int) (net : Except String TokenResponse)
    (store : Option TokenRecord) :
    Option TokenRecord × List (Option String) :=
  match store with
  | none => (none, [])
  | some tokens =>
      if !(jsIntTruthy tokens.expires_at) then (some tokens, [])
      else
        let msLeft := tokens.expires_at.getD 0 - now
        if msLeft < 12 * 60 * 60 * 1000 then
          let r := refreshAccessToken now tokens.refresh_token net (some tokens)
          (r.2.1, r.2.2)
        else
          (some tokens, [])

/-- The `/token-status` response (lines 211-220). In JS, when `expires_at`
is `undefined` the subtraction yields `NaN`, which `res.json` serializes as
`null`; `Option.map` models both optional fields. `!!tokens.refresh_token`
is string truthiness. -/
structure TokenStatus where
  authorized : Bool
  expires_at : Option Int
  ms_until_expiry : Option Int
  has_refresh_token : Option Bool
  deriving Repr, DecidableEq

/-- Handler of `GET /token-status` (lines 211-220). -/
def tokenStatus (now : Int) (store : Option TokenRecord) : TokenStatus :=
  match store with
  | none => { authorized := false, expires_at := none, ms_until_expiry := none, has_refresh_token := none }
  | some tokens =>
      { authorized := true
        expires_at := tokens.expires_at
        ms_until_expiry := tokens.expires_at.map (fun e => e - now)
        has_refresh_token := some (jsStrTruthy tokens.refresh_token) }

/-- The JSON body of a `POST /lead` request (lines 150-162). All fields may
be absent. -/
structure LeadBody where
  firstName : Option String
  lastName : Option String
  email : Option String
  phone : Option String
  address1 : Option String
  address2 : Option String
  city : Option String
  state : Option String
  zip : Option String
  country : Option String
  summary : Option String
  typeOfClient : Option String
  customFieldId : Option Int
  deriving Repr, DecidableEq

/-- The nested `address` object of the downstream payload (lines 177-184). -/
structure Address where
  address1 : String
  address2 : String
  city : String
  state : String
  zip_code : String
  country : String
  deriving Repr, DecidableEq

/-- One element of `custom_field_values` (lines 189-194):
`{custom_field: {id}, value}`. -/
structure CustomFieldValue where
  custom_field_id : Int
  value : String
  deriving Repr, DecidableEq

/-- The downstream lead-creation payload (lines 172-195). `none` in
`custom_field_values` means the key is absent from the object. -/
structure LeadPayload where
  first_name : Option String
  last_name : Option String
  email : Option String
  cell_phone_number : Option String
  address : Address
  lead_details : String
  custom_field_values : Option (List CustomFieldValue)
  deriving Repr, DecidableEq

/-- The `/lead` validation (line 165): `!body.firstName || !body.lastName`
rejects with 400. -/
def leadValid (body : LeadBody) : Bool :=
  jsStrTruthy body.firstName && jsStrTruthy body.lastName

/-- The payload construction of the `/lead` handler (lines 172-195),
including the conditional `custom_field_values` attachment (lines 188-195):
added only when `body.typeOfClient && body.customFieldId` is truthy. -/
def buildLeadPayload (body : LeadBody) : LeadPayload :=
  let base : LeadPayload :=
    { first_name := body.firstName
      last_name := body.lastName
      email := jsOrNull body.email
      cell_phone_number := jsOrNull body.phone
      address :=
        { address1 := jsOr body.address1 ""
          address2 := jsOr body.address2 ""
          city := jsOr body.city ""
          state := jsOr body.state ""
          zip_code := jsOr body.zip ""
          country := jsOr body.country "US" }
      lead_details := jsOr body.summary ""
      custom_field_values := none }
  if jsStrTruthy body.typeOfClient && jsIntTruthy body.customFieldId then
    { base with
        custom_field_values := some [CustomFieldValue.mk (body.customFieldId.getD 0) (body.typeOfClient.getD "")] }
  else
    base

/-! ### Helper lemmas shared by several theorems -/

/-- Saving never changes the `access_token` field. -/
theorem saveTokens_access_token (now : Int) (t : TokenRecord) :
    (saveTokens now t).access_token = t.access_token := by
  unfold saveTokens
  split <;> rfl

/-- A record whose `expires_at` is a nonzero value more than 2 minutes after
`now` is not near expiry. -/
theorem nearExpiry_false_of_fresh (now e : Int) (r : TokenRecord)
    (hnz : e ≠ 0) (he : r.expires_at = some e) (hfresh : now < e - 120000) :
    nearExpiry now r = false := by
  unfold nearExpiry
  rw [he]
  simp [jsIntTruthy, hnz]
  omega

/-- A record whose `expires_at` is absent, or within 2 minutes of `now`, or
in the past, is near expiry. -/
theorem nearExpiry_true_of_near (now : Int) (r : TokenRecord)
    (h : r.expires_at = none ∨ ∃ e, r.expires_at = some e ∧ e - 120000 ≤ now) :
    nearExpiry now r = true := by
  unfold nearExpiry
  rcases h with h | ⟨e, he, hle⟩
  · rw [h]
    rfl
  · rw [he]
    rcases eq_or_ne e 0 with rfl | hnz
    · rfl
    · simp [jsIntTruthy, hnz]
      omega

/-- On a record that is not near expiry, `getValidAccessToken` returns the
stored `access_token`, leaves the store alone and performs no refresh. -/
theorem getValidAccessToken_of_not_near (now : Int)
    (net : Except String TokenResponse) (r : TokenRecord)
    (h : nearExpiry now r = false) :
    getValidAccessToken now net (some r) = (.ok r.access_token, some r, []) := by
  simp [getValidAccessToken, h]

/-- On a near-expiry record with a truthy refresh token, a 2xx refresh
response replaces the store with the saved new record and yields its
`access_token`, with exactly one refresh invocation. -/
theorem getValidAccessToken_of_near_ok (now : Int) (data : TokenResponse)
    (r : TokenRecord) (hne : nearExpiry now r = true)
    (hrt : jsStrTruthy r.refresh_token = true) :
    getValidAccessToken now (.ok data) (some r) =
      (.ok data.access_token, some (saveTokens now (mkTokenRecord now data)),
        [r.refresh_token]) := by
  simp [getValidAccessToken, hne, hrt, refreshAccessToken, saveTokens_access_token,
    mkTokenRecord]

/-- On a near-expiry record with a truthy refresh token, a failed refresh
propagates `RefreshFailed cause` and leaves the store unchanged, with exactly
one refresh invocation. -/
theorem getValidAccessToken_of_near_err (now : Int) (cause : String)
    (r : TokenRecord) (hne : nearExpiry now r = true)
    (hrt : jsStrTruthy r.refresh_token = true) :
    getValidAccessToken now (.error cause) (some r) =
      (.error (.RefreshFailed cause), some r, [r.refresh_token]) := by
  simp [getValidAccessToken, hne, hrt, refreshAccessToken]

/-! ### Claims -/

/-- C1: for every stored record whose `expires_at` is more than 2 minutes
(120000 ms) after the non-negative current time, `getValidAccessToken`
returns the stored `access_token` unchanged, performs no refresh invocation
(empty call list, so no network call), and leaves the stored record exactly
as it was. -/
theorem getValidAccessToken_fresh_token_passthrough
    (now e : Int) (net : Except String TokenResponse) (r : TokenRecord)
    (hnow : 0 ≤ now) (he : r.expires_at = some e) (hfresh : now < e - 120000) :
    getValidAccessToken now net (some r) = (.ok r.access_token, some r, []) := by
  have hnz : e ≠ 0 := by omega
  exact getValidAccessToken_of_not_near now net r
    (nearExpiry_false_of_fresh now e r hnz he hfresh)

/-- Witness for C1: a record expiring at 1000000 ms, queried at time 0 with
the network down, is returned unchanged with no refresh call. -/
theorem getValidAccessToken_fresh_token_passthrough_witness :
    getValidAccessToken 0 (.error "network down")
        (some { access_token := some "tok", refresh_token := some "rt",
                expires_in := none, expires_at := some 1000000 }) =
      (.ok (some "tok"),
        some { access_token := some "tok", refresh_token := some "rt",
               expires_in := none, expires_at := some 1000000 }, []) :=
  getValidAccessToken_fresh_token_passthrough 0 1000000 (.error "network down")
    { access_token := some "tok", refresh_token := some "rt",
      expires_in := none, expires_at := some 1000000 }
    (by decide) rfl (by decide)

/-- C2: for every stored record whose `expires_at` is absent or within
2 minutes (inclusive) of now or in the past, with a truthy `refresh_token`,
and a successful token-endpoint response, `getValidAccessToken` performs
exactly one refresh invocation (call list of length one, carrying the stored
refresh token), replaces the store with the saved refreshed record, and
returns the new `access_token`. -/
theorem getValidAccessToken_near_expiry_refreshes
    (now : Int) (data : TokenResponse) (r : TokenRecord)
    (hnear : r.expires_at = none ∨ ∃ e, r.expires_at = some e ∧ e - 120000 ≤ now)
    (hrt : jsStrTruthy r.refresh_token = true) :
    getValidAccessToken now (.ok data) (some r) =
      (.ok data.access_token, some (saveTokens now (mkTokenRecord now data)),
        [r.refresh_token]) :=
  getValidAccessToken_of_near_ok now data r (nearExpiry_true_of_near now r hnear) hrt

/-- Witness for C2: a record one minute from expiry at time 1000000 is
refreshed; the store afterwards holds the saved response record and the new
token is returned, with exactly one refresh invocation. -/
theorem getValidAccessToken_near_expiry_refreshes_witness :
    getValidAccessToken 1000000
        (.ok { access_token := some "new", refresh_token := some "rt2",
               expires_in := some 86400 })
        (some { access_token := some "old", refresh_token := some "rt",
                expires_in := none, expires_at := some 1060000 }) =
      (.ok (some "new"),
        some { access_token := some "new", refresh_token := some "rt2",
               expires_in := some 86400, expires_at := some 87400000 },
        [some "rt"]) :=
  getValidAccessToken_near_expiry_refreshes 1000000
    { access_token := some "new", refresh_token := some "rt2",
      expires_in := some 86400 }
    { access_token := some "old", refresh_token := some "rt",
      expires_in := none, expires_at := some 1060000 }
    (Or.inr ⟨1060000, rfl, by decide⟩) rfl

/-- C3: a failed token-endpoint call (network error or non-2xx) makes
`refreshAccessToken` fail with `RefreshFailed` carrying the cause while
leaving the store exactly as before, and through `getValidAccessToken`
(on a near-expiry record with a truthy refresh token) the same error
propagates to the caller with the old record still in the store. -/
theorem refresh_failure_propagates_and_preserves_store
    (now : Int) (rt : Option String) (cause : String)
    (store : Option TokenRecord) (r : TokenRecord)
    (hne : nearExpiry now r = true) (hrt : jsStrTruthy r.refresh_token = true) :
    refreshAccessToken now rt (.error cause) store =
      (.error (.RefreshFailed cause), store, [rt]) ∧
    getValidAccessToken now (.error cause) (some r) =
      (.error (.RefreshFailed cause), some r, [r.refresh_token]) :=
  ⟨rfl, getValidAccessToken_of_near_err now cause r hne hrt⟩

/-- Witness for C3: refreshing an expired record over a broken connection
returns `RefreshFailed` and keeps the old record in the store. -/
theorem refresh_failure_propagates_and_preserves_store_witness :
    refreshAccessToken 500 (some "rt") (.error "ECONNRESET")
        (some { access_token := some "old", refresh_token := some "rt",
                expires_in := none, expires_at := some 400 }) =
      (.error (.RefreshFailed "ECONNRESET"),
        some { access_token := some "old", refresh_token := some "rt",
               expires_in := none, expires_at := some 400 }, [some "rt"]) ∧
    getValidAccessToken 500 (.error "ECONNRESET")
        (some { access_token := some "old", refresh_token := some "rt",
                expires_in := none, expires_at := some 400 }) =
      (.error (.RefreshFailed "ECONNRESET"),
        some { access_token := some "old", refresh_token := some "rt",
               expires_in := none, expires_at := some 400 }, [some "rt"]) :=
  refresh_failure_propagates_and_preserves_store 500 (some "rt") "ECONNRESET"
    (some { access_token := some "old", refresh_token := some "rt",
            expires_in := none, expires_at := some 400 })
    { access_token := some "old", refresh_token := some "rt",
      expires_in := none, expires_at := some 400 }
    (by decide) rfl

/-- C4: with an empty store `getValidAccessToken` fails with `Unauthorized`,
and with a stored near-expiry record (absent `expires_at`, or within 2
minutes of now, or past) whose `refresh_token` is falsy it fails with
`MissingRefreshToken`; in both cases the refresh-invocation list is empty
(no network call) and the store is unchanged. -/
theorem getValidAccessToken_unauthorized_and_missing_refresh
    (now : Int) (net : Except String TokenResponse) (r : TokenRecord)
    (hnear : r.expires_at = none ∨ ∃ e, r.expires_at = some e ∧ e - 120000 ≤ now)
    (hrt : jsStrTruthy r.refresh_token = false) :
    getValidAccessToken now net none = (.error .Unauthorized, none, []) ∧
    getValidAccessToken now net (some r) =
      (.error .MissingRefreshToken, some r, []) := by
  refine ⟨rfl, ?_⟩
  have hne := nearExpiry_true_of_near now r hnear
  simp [getValidAccessToken, hne, hrt]

/-- Witness for C4: an empty store is `Unauthorized`; an expired record with
no refresh token is `MissingRefreshToken`, with no refresh call either way. -/
theorem getValidAccessToken_unauthorized_and_missing_refresh_witness :
    getValidAccessToken 1000 (.error "unused") none =
      (.error .Unauthorized, none, []) ∧
    getValidAccessToken 1000 (.error "unused")
        (some { access_token := some "tok", refresh_token := none,
                expires_in := none, expires_at := none }) =
      (.error .MissingRefreshToken,
        some { access_token := some "tok", refresh_token := none,
               expires_in := none, expires_at := none }, []) :=
  getValidAccessToken_unauthorized_and_missing_refresh 1000 (.error "unused")
    { access_token := some "tok", refresh_token := none,
      expires_in := none, expires_at := none }
    (Or.inl rfl) rfl

/-- C5 counterexample: the stored record
`{refresh_token: "rt", expires_at: 1000000000}` has no `access_token`, yet
`GET /token-status` reports `authorized: true` for it while the absent-record
state reports `authorized: false` — so a record lacking `access_token` is
not treated like the unauthorized state. Moreover `getValidAccessToken`
succeeds on it (returning the absent token) instead of failing
`Unauthorized` as it does on the absent-record state. -/
theorem tokenRecord_without_access_token_still_authorized :
    (tokenStatus 0 (some { access_token := none, refresh_token := some "rt",
                           expires_in := none, expires_at := some 1000000000 })).authorized
        = true ∧
    (tokenStatus 0 none).authorized = false ∧
    getValidAccessToken 0 (.error "unused")
        (some { access_token := none, refresh_token := some "rt",
                expires_in := none, expires_at := some 1000000000 }) =
      (.ok none,
        some { access_token := none, refresh_token := some "rt",
               expires_in := none, expires_at := some 1000000000 }, []) ∧
    getValidAccessToken 0 (.error "unused") none =
      (.error .Unauthorized, none, []) :=
  ⟨rfl, rfl, rfl, rfl⟩

/-- C5 amended: the `authorized` field of `/token-status` reflects only the
presence of a stored record — a record lacking `access_token` is still
reported `authorized: true` (only the absent record gives `false`) — and
`getValidAccessToken` on such a record, when it is not near expiry, succeeds
with the absent `access_token` instead of failing `Unauthorized`. -/
theorem authorized_reflects_record_presence_only
    (now e : Int) (net : Except String TokenResponse) (r : TokenRecord)
    (hat : r.access_token = none)
    (hnow : 0 ≤ now) (he : r.expires_at = some e) (hfresh : now < e - 120000) :
    (tokenStatus now (some r)).authorized = true ∧
    (tokenStatus now none).authorized = false ∧
    getValidAccessToken now net (some r) = (.ok none, some r, []) := by
  refine ⟨rfl, rfl, ?_⟩
  have hnz : e ≠ 0 := by omega
  rw [getValidAccessToken_of_not_near now net r
    (nearExpiry_false_of_fresh now e r hnz he hfresh), hat]

/-- Witness for C5 (amended): a fresh record with no `access_token` is
reported authorized and `getValidAccessToken` succeeds with no token. -/
theorem authorized_reflects_record_presence_only_witness :
    (tokenStatus 0 (some { access_token := none, refresh_token := some "rt",
                           expires_in := none, expires_at := some 500000 })).authorized
        = true ∧
    (tokenStatus 0 none).authorized = false ∧
    getValidAccessToken 0 (.error "unused")
        (some { access_token := none, refresh_token := some "rt",
                expires_in := none, expires_at := some 500000 }) =
      (.ok none,
        some { access_token := none, refresh_token := some "rt",
               expires_in := none, expires_at := some 500000 }, []) :=
  authorized_reflects_record_presence_only 0 500000 (.error "unused")
    { access_token := none, refresh_token := some "rt",
      expires_in := none, expires_at := some 500000 }
    rfl (by decide) rfl (by decide)

/-- C6: for every lead body passing validation (truthy `firstName` and
`lastName`), the downstream payload maps `firstName`/`lastName` through
unchanged, maps `email`/`phone` to `email`/`cell_phone_number` with `null`
(absent) defaults, defaults every address field to `""` except `country`
which defaults to `"US"`, defaults `lead_details` to `""`, passes truthy
`email`/`phone`/address values through, and carries a `custom_field_values`
key exactly when both `typeOfClient` and `customFieldId` are truthy — in
particular `typeOfClient` alone (absent `customFieldId`) produces no
`custom_field_values` key. -/
theorem buildLeadPayload_mapping (body : LeadBody)
    (hf : jsStrTruthy body.firstName = true)
    (hl : jsStrTruthy body.lastName = true) :
    leadValid body = true ∧
    (buildLeadPayload body).first_name = body.firstName ∧
    (buildLeadPayload body).last_name = body.lastName ∧
    (body.email = none → (buildLeadPayload body).email = none) ∧
    (∀ s, body.email = some s → s ≠ "" → (buildLeadPayload body).email = some s) ∧
    (body.phone = none → (buildLeadPayload body).cell_phone_number = none) ∧
    (∀ s, body.phone = some s → s ≠ "" →
      (buildLeadPayload body).cell_phone_number = some s) ∧
    (body.address1 = none → (buildLeadPayload body).address.address1 = "") ∧
    (body.address2 = none → (buildLeadPayload body).address.address2 = "") ∧
    (body.city = none → (buildLeadPayload body).address.city = "") ∧
    (body.state = none → (buildLeadPayload body).address.state = "") ∧
    (body.zip = none → (buildLeadPayload body).address.zip_code = "") ∧
    (body.country = none → (buildLeadPayload body).address.country = "US") ∧
    (∀ s, body.city = some s → s ≠ "" → (buildLeadPayload body).address.city = s) ∧
    (body.summary = none → (buildLeadPayload body).lead_details = "") ∧
    (body.customFieldId = none → (buildLeadPayload body).custom_field_values = none) ∧
    (body.typeOfClient = none → (buildLeadPayload body).custom_field_values = none) ∧
    (∀ t i, body.typeOfClient = some t → t ≠ "" → body.customFieldId = some i →
      i ≠ 0 → (buildLeadPayload body).custom_field_values =
        some [CustomFieldValue.mk i t]) := by
  have hbase : ∀ s : String, (s == "") = decide (s = "") := fun s => rfl
  refine ⟨by simp [leadValid, hf, hl], ?_, ?_, ?_, ?_, ?_, ?_, ?_, ?_, ?_, ?_, ?_,
    ?_, ?_, ?_, ?_, ?_, ?_⟩
  · simp [buildLeadPayload]
    split <;> rfl
  · simp [buildLeadPayload]
    split <;> rfl
  · intro h
    simp [buildLeadPayload, jsOrNull, h]
    split <;> rfl
  · intro s h hs
    simp only [buildLeadPayload, jsOrNull, h]
    split <;> simp [hs]
  · intro h
    simp [buildLeadPayload, jsOrNull, h]
    split <;> rfl
  · intro s h hs
    simp only [buildLeadPayload, jsOrNull, h]
    split <;> simp [hs]
  · intro h
    simp only [buildLeadPayload, jsOr, h]
    split <;> rfl
  · intro h
    simp only [buildLeadPayload, jsOr, h]
    split <;> rfl
  · intro h
    simp only [buildLeadPayload, jsOr, h]
    split <;> rfl
  · intro h
    simp only [buildLeadPayload, jsOr, h]
    split <;> rfl
  · intro h
    simp only [buildLeadPayload, jsOr, h]
    split <;> rfl
  · intro h
    simp only [buildLeadPayload, jsOr, h]
    split <;> rfl
  · intro s h hs
    simp only [buildLeadPayload, jsOr, h]
    split <;> simp [hs]
  · intro h
    simp only [buildLeadPayload, jsOr, h]
    split <;> rfl
  · intro h
    simp [buildLeadPayload, jsIntTruthy, h]
  · intro h
    simp [buildLeadPayload, jsStrTruthy, h]
  · intro t i ht hts hi his
    simp [buildLeadPayload, jsStrTruthy, jsIntTruthy, ht, hi, hts, his]

/-- Witness for C6: the spec scenario `{firstName:"John", lastName:"Doe",
email:"j@x.com", typeOfClient:"Real Estate"}` with no `customFieldId` is
valid, keeps the names and email, defaults phone to null and country to
"US", and carries no `custom_field_values` key. -/
theorem buildLeadPayload_mapping_witness :
    leadValid
      { firstName := some "John", lastName := some "Doe", email := some "j@x.com",
        phone := none, address1 := none, address2 := none, city := none,
        state := none, zip := none, country := none, summary := none,
        typeOfClient := some "Real Estate", customFieldId := none } = true ∧
    (buildLeadPayload
      { firstName := some "John", lastName := some "Doe", email := some "j@x.com",
        phone := none, address1 := none, address2 := none, city := none,
        state := none, zip := none, country := none, summary := none,
        typeOfClient := some "Real Estate", customFieldId := none }).custom_field_values
      = none ∧
    (buildLeadPayload
      { firstName := some "John", lastName := some "Doe", email := some "j@x.com",
        phone := none, address1 := none, address2 := none, city := none,
        state := none, zip := none, country := none, summary := none,
        typeOfClient := some "Real Estate", customFieldId := none }).address.country
      = "US" := by
  have h := buildLeadPayload_mapping
    { firstName := some "John", lastName := some "Doe", email := some "j@x.com",
      phone := none, address1 := none, address2 := none, city := none,
      state := none, zip := none, country := none, summary := none,
      typeOfClient := some "Real Estate", customFieldId := none }
    (by decide) (by decide)
  exact ⟨h.1, h.2.2.2.2.2.2.2.2.2.2.2.2.2.2.2.1 rfl,
    h.2.2.2.2.2.2.2.2.2.2.2.2.1 rfl⟩

/-- C7 counterexample: the record `{access_token:"tok", refresh_token:"rt",
expires_at: 0}` has `expires_at` present, and at time 1 its remaining
lifetime is `-1 < 12h`, so the claim demands exactly one refresh call; but
`backgroundRefresher` performs none (the JS test `!tokens.expires_at` treats
the value `0` as absent), even though the network call would have
succeeded. -/
theorem backgroundRefresher_zero_expiry_skips :
    ({ access_token := some "tok", refresh_token := some "rt",
       expires_in := none, expires_at := some 0 } : TokenRecord).expires_at
      = some 0 ∧
    ((0 : Int) - 1 < 12 * 60 * 60 * 1000) ∧
    backgroundRefresher 1
        (.ok { access_token := some "new", refresh_token := some "rt",
               expires_in := some 3600 })
        (some { access_token := some "tok", refresh_token := some "rt",
                expires_in := none, expires_at := some 0 }) =
      (some { access_token := some "tok", refresh_token := some "rt",
              expires_in := none, expires_at := some 0 }, []) :=
  ⟨rfl, by decide, rfl⟩

/-- C7 amended: one tick of `backgroundRefresher` is a no-op when the stored
record is absent or its `expires_at` is falsy (absent or the value `0`,
which the JS truthiness test treats as absent); when `expires_at` is present
and nonzero the tick performs exactly one refresh invocation if the
remaining lifetime is strictly less than 12 hours (43200000 ms) — so
`msLeft = 11h` refreshes and `msLeft = 13h` does not — and performs none
otherwise. -/
theorem backgroundRefresher_tick_cases
    (now e : Int) (net : Except String TokenResponse) (r : TokenRecord)
    (he : r.expires_at = some e) (hnz : e ≠ 0) :
    backgroundRefresher now net none = (none, []) ∧
    (∀ r2 : TokenRecord, jsIntTruthy r2.expires_at = false →
      backgroundRefresher now net (some r2) = (some r2, [])) ∧
    (e - now < 43200000 →
      (backgroundRefresher now net (some r)).2 = [r.refresh_token]) ∧
    (43200000 ≤ e - now →
      backgroundRefresher now net (some r) = (some r, [])) := by
  have ht : jsIntTruthy r.expires_at = true := by simp [he, jsIntTruthy, hnz]
  refine ⟨rfl, ?_, ?_, ?_⟩
  · intro r2 h2
    simp [backgroundRefresher, h2]
  · intro hlt
    have hlt2 : r.expires_at.getD 0 - now < 43200000 := by
      rw [he]
      simp only [Option.getD_some]
      omega
    simp [backgroundRefresher, ht, hlt2]
    cases net <;> rfl
  · intro hge
    have hge2 : ¬(r.expires_at.getD 0 - now < 43200000) := by
      rw [he]
      simp only [Option.getD_some]
      omega
    simp [backgroundRefresher, ht, hge2]

/-- Witness for C7 (amended): at time 0, a token with 11 hours left
(expires at 39600000) gets exactly one refresh invocation, one with 13
hours left (46800000) gets none, and an empty store is a no-op. -/
theorem backgroundRefresher_tick_cases_witness :
    (backgroundRefresher 0 (.error "down")
        (some { access_token := some "a", refresh_token := some "rt",
                expires_in := none, expires_at := some 39600000 })).2
      = [some "rt"] ∧
    backgroundRefresher 0 (.error "down")
        (some { access_token := some "a", refresh_token := some "rt",
                expires_in := none, expires_at := some 46800000 }) =
      (some { access_token := some "a", refresh_token := some "rt",
              expires_in := none, expires_at := some 46800000 }, []) ∧
    backgroundRefresher 0 (.error "down") none = (none, []) := by
  have h11 := backgroundRefresher_tick_cases 0 39600000 (.error "down")
    { access_token := some "a", refresh_token := some "rt",
      expires_in := none, expires_at := some 39600000 } rfl (by decide)
  have h13 := backgroundRefresher_tick_cases 0 46800000 (.error "down")
    { access_token := some "a", refresh_token := some "rt",
      expires_in := none, expires_at := some 46800000 } rfl (by decide)
  exact ⟨h11.2.2.1 (by decide), h13.2.2.2 (by decide), h11.1⟩

/-- C8: `saveTokens` is idempotent in `expires_at` — writing the record a
second time at the same instant (the second call receiving the record the
first call already mutated) stores the same `expires_at` as writing once. -/
theorem saveTokens_idempotent_expires_at (now : Int) (t : TokenRecord) :
    (saveTokens now (saveTokens now t)).expires_at = (saveTokens now t).expires_at := by
  cases h : jsIntTruthy t.expires_in <;> simp [saveTokens, h]

/-- C9 counterexample: the record `{access_token:"tok", expires_at: 0}` has
`expires_at` with remaining lifetime `-1 < 12h` at time 1 and no
`refresh_token`, yet one tick of `backgroundRefresher` performs no refresh
invocation at all — it skips, because the JS test `!tokens.expires_at`
treats the value `0` as absent. -/
theorem backgroundRefresher_zero_expiry_no_rt_skips :
    ({ access_token := some "tok", refresh_token := none,
       expires_in := none, expires_at := some 0 } : TokenRecord).refresh_token
      = none ∧
    ({ access_token := some "tok", refresh_token := none,
       expires_in := none, expires_at := some 0 } : TokenRecord).expires_at
      = some 0 ∧
    ((0 : Int) - 1 < 12 * 60 * 60 * 1000) ∧
    backgroundRefresher 1 (.error "invalid grant")
        (some { access_token := some "tok", refresh_token := none,
                expires_in := none, expires_at := some 0 }) =
      (some { access_token := some "tok", refresh_token := none,
              expires_in := none, expires_at := some 0 }, []) :=
  ⟨rfl, rfl, by decide, rfl⟩

/-- C9 amended: for every stored record with a nonzero `expires_at` whose
remaining lifetime is below 12 hours and whose `refresh_token` is absent,
one tick of `backgroundRefresher` does not skip the refresh: it performs
exactly one refresh invocation carrying the absent refresh token, and when
that call fails the error is swallowed by the tick's catch block (the
function, being total, returns a value rather than throwing) with the
stored record left unchanged. -/
theorem backgroundRefresher_refreshes_without_token
    (now e : Int) (cause : String) (r : TokenRecord)
    (he : r.expires_at = some e) (hnz : e ≠ 0) (hlt : e - now < 43200000)
    (hrt : r.refresh_token = none) :
    backgroundRefresher now (.error cause) (some r) = (some r, [none]) := by
  have ht : jsIntTruthy r.expires_at = true := by simp [he, jsIntTruthy, hnz]
  have hlt2 : r.expires_at.getD 0 - now < 43200000 := by
    rw [he]
    simp only [Option.getD_some]
    omega
  simp [backgroundRefresher, ht, hlt2, refreshAccessToken, hrt]

/-- Witness for C9 (amended): a record one hour from expiry with no refresh
token triggers one refresh invocation with the absent token; the failing
call is swallowed and the record kept. -/
theorem backgroundRefresher_refreshes_without_token_witness :
    backgroundRefresher 0 (.error "invalid grant")
        (some { access_token := some "tok", refresh_token := none,
                expires_in := none, expires_at := some 3600000 }) =
      (some { access_token := some "tok", refresh_token := none,
              expires_in := none, expires_at := some 3600000 }, [none]) :=
  backgroundRefresher_refreshes_without_token 0 3600000 "invalid grant"
    { access_token := some "tok", refresh_token := none,
      expires_in := none, expires_at := some 3600000 }
    rfl (by decide) (by decide) rfl

/-- C10: when a successful code-exchange or refresh response lacks
`expires_in`, the record that both paths save carries
`expires_at = now` (the time of the write, `now + 0`), not an absent field;
consequently at every later instant `now2 ≥ now` the stored record is
classified near-or-past expiry by `getValidAccessToken`'s test
(`nearExpiry`), so the very next call refreshes instead of reusing it. -/
theorem missing_expires_in_expires_immediately
    (now now2 : Int) (resp : TokenResponse) (store : Option TokenRecord)
    (rt : Option String)
    (hin : resp.expires_in = none) (hord : now ≤ now2) :
    (saveTokens now (mkTokenRecord now resp)).expires_at = some now ∧
    exchangeCodeForTokens now (.ok resp) store =
      (.ok (saveTokens now (mkTokenRecord now resp)),
        some (saveTokens now (mkTokenRecord now resp))) ∧
    (refreshAccessToken now rt (.ok resp) store).2.1 =
      some (saveTokens now (mkTokenRecord now resp)) ∧
    nearExpiry now2 (saveTokens now (mkTokenRecord now resp)) = true := by
  have hex : (saveTokens now (mkTokenRecord now resp)).expires_at = some now := by
    simp [saveTokens, mkTokenRecord, jsIntTruthy, hin]
  refine ⟨hex, rfl, rfl, ?_⟩
  unfold nearExpiry
  rw [hex]
  rcases eq_or_ne now 0 with rfl | hnz
  · rfl
  · simp [jsIntTruthy, hnz]
    omega

/-- Witness for C10: a refresh response without `expires_in` handled at time
5 stores `expires_at = 5`, and at time 10 the stored record is already near
expiry. -/
theorem missing_expires_in_expires_immediately_witness :
    (saveTokens 5 (mkTokenRecord 5
        { access_token := some "a", refresh_token := some "r",
          expires_in := none })).expires_at = some 5 ∧
    exchangeCodeForTokens 5
        (.ok { access_token := some "a", refresh_token := some "r",
               expires_in := none }) none =
      (.ok (saveTokens 5 (mkTokenRecord 5
          { access_token := some "a", refresh_token := some "r",
            expires_in := none })),
        some (saveTokens 5 (mkTokenRecord 5
          { access_token := some "a", refresh_token := some "r",
            expires_in := none }))) ∧
    (refreshAccessToken 5 (some "r")
        (.ok { access_token := some "a", refresh_token := some "r",
               expires_in := none }) none).2.1 =
      some (saveTokens 5 (mkTokenRecord 5
        { access_token := some "a", refresh_token := some "r",
          expires_in := none })) ∧
    nearExpiry 10 (saveTokens 5 (mkTokenRecord 5
        { access_token := some "a", refresh_token := some "r",
          expires_in := none })) = true :=
  missing_expires_in_expires_immediately 5 10
    { access_token := some "a", refresh_token := some "r", expires_in := none }
    none (some "r") rfl (by decide)

end MyCase
